import Mathlib

/-!
Verification of the thermal-simulation scripts of this repository.

The development shallowly embeds the three Python source files:
* `src/grzejnik.py`   — incremental (velocity-form) PI controller `PI` and the
  room-heating simulation `simulate_2h`;
* `src/ac.py`         — continuous-form PID controller `PIDController`, the
  wall/window heat-loss model `heat_loss_model`, the overshoot statistic
  `calculate_overshoot` and the simulation `symulacja`;
* `src/.ipynb_checkpoints/ac-checkpoint.py` — an earlier PID variant with
  integral clamping and its simulation.

Python floats are idealised as exact numbers: controllers are defined over an
arbitrary linear ordered field (instantiated at `ℚ` where everything is
computable), while the `ac.py` simulation lives over `ℝ` because its
window-open branch takes a square root.  Fallible Python arithmetic (division
by zero, `max` of an empty list) is modelled in the `Except PyErr` monad.
-/

/-- Python exception kinds reachable in the embedded code:
`ZeroDivisionError` from `x / 0`, `ValueError` from `max([])`. -/
inductive PyErr where
  | zeroDivisionError
  | valueError
deriving DecidableEq, Repr

/-- Python float division: raises `ZeroDivisionError` on a zero denominator. -/
def pydiv {K : Type} [LinearOrderedField K] (x y : K) : Except PyErr K :=
  if y = 0 then .error .zeroDivisionError else .ok (x / y)

/-- `np.clip(x, lo, hi) = min(max(x, lo), hi)`. -/
def npClip {K : Type} [LinearOrderedField K] (x lo hi : K) : K :=
  min (max x lo) hi

/-- Python `max` on a list: raises `ValueError` when the list is empty. -/
def pymax {K : Type} [LinearOrderedField K] : List K → Except PyErr K
  | [] => .error .valueError
  | x :: xs => .ok (xs.foldl max x)

/-- Python `int(x)`: truncation toward zero. -/
def pyInt {K : Type} [LinearOrderedField K] [FloorRing K] (x : K) : ℤ :=
  if 0 ≤ x then ⌊x⌋ else ⌈x⌉

namespace Grzejnik

/-- State of the `PI` class of `src/grzejnik.py` (configuration fields set in
`__init__` together with the mutable fields `u_prev`, `e_prev`, `delta_u`). -/
structure PI (K : Type) where
  kp : K
  Ti : K
  Tp : K
  u_min : K
  u_max : K
  u_prev : K
  e_prev : K
  delta_u : K
deriving DecidableEq, Repr

variable {K : Type} [LinearOrderedField K]

/-- `PI.__init__(kp, Ti, Tp, u_min, u_max)`. -/
def PI.init (kp Ti Tp u_min u_max : K) : PI K :=
  ⟨kp, Ti, Tp, u_min, u_max, 0, 0, 0⟩

/-- `PI.reset`. -/
def PI.reset (c : PI K) : PI K :=
  { c with u_prev := 0, e_prev := 0 }

/-- `PI.update(setpoint, measurement)` of `src/grzejnik.py`: returns the
clamped output together with the mutated object. -/
def PI.update (c : PI K) (setpoint measurement : K) : Except PyErr (K × PI K) := do
  let e := setpoint - measurement
  let delta_e := e - c.e_prev
  let r ← pydiv c.Tp c.Ti
  let delta_u := c.kp * (delta_e + r * e)
  let u := c.u_prev + delta_u
  let u := npClip u c.u_min c.u_max
  return (u, { c with e_prev := e, u_prev := u, delta_u := delta_u })

/-- Loop state of `simulate_2h`: the controller object, the room temperature
and the four output arrays being appended to. -/
structure SimSt where
  pid : PI ℚ
  T_room : ℚ
  time_arr : List ℚ
  temp_arr : List ℚ
  power_arr : List ℚ
  heat_loss_arr : List ℚ
deriving DecidableEq, Repr

/-- One iteration of the `for t in range(SIM_TIME)` loop of `simulate_2h`
(`src/grzejnik.py`), at loop index `t`. -/
def gStep (setpoint Tp T_outside : ℚ) (t : ℕ) (s : SimSt) : Except PyErr SimSt := do
  let current_time_min : ℚ := (t : ℚ) * Tp / 60
  let time_arr := s.time_arr ++ [current_time_min]
  let temp_arr := s.temp_arr ++ [s.T_room]
  let heat_loss_walls := 0.2 * (40.0 - 1.8 - 1.35) * (s.T_room - T_outside)
  let heat_loss_door := 1.3 * 1.8 * (s.T_room - T_outside)
  let heat_loss_window := 0.9 * 1.35 * (s.T_room - T_outside)
  let heat_loss_roof := 0.15 * 16 * (s.T_room - T_outside)
  let _heat_loss_ground := 0.3 * 16 * (s.T_room - T_outside)
  let total_heat_loss :=
    (heat_loss_walls + heat_loss_door + heat_loss_window + heat_loss_roof) * 0.5
  let heat_loss_arr := s.heat_loss_arr ++ [total_heat_loss]
  let (p_grzejnik, pid) ← s.pid.update setpoint s.T_room
  let p_grzejnik_total := npClip p_grzejnik 0 5000.0
  let power_arr := s.power_arr ++ [p_grzejnik_total]
  let q := p_grzejnik_total
  let dT := (q - total_heat_loss * Tp) / (4.0 * 4.0 * 2.5 * 1.2 * 1005.0)
  return ⟨pid, s.T_room + dT, time_arr, temp_arr, power_arr, heat_loss_arr⟩

/-- The `simulate_2h` loop, running `n` further iterations starting at loop
index `t`. -/
def gRun (setpoint Tp T_outside : ℚ) : ℕ → ℕ → SimSt → Except PyErr SimSt
  | 0, _, s => .ok s
  | n + 1, t, s =>
    match gStep setpoint Tp T_outside t s with
    | .error err => .error err
    | .ok s' => gRun setpoint Tp T_outside n (t + 1) s'

/-- `simulate_2h(kp, Ti, setpoint, Tp, T_init, T_outside)` of
`src/grzejnik.py`, returning `(time_array, temp_array, power_array,
heat_loss_array)`. -/
def simulate_2h (kp Ti setpoint Tp T_init T_outside : ℚ) :
    Except PyErr (List ℚ × List ℚ × List ℚ × List ℚ) := do
  let sim_time_q ← pydiv (2 * 3600 : ℚ) Tp
  let sim_time := (pyInt sim_time_q).toNat
  let pid := (PI.init kp Ti Tp 0 5000.0).reset
  let s ← gRun setpoint Tp T_outside sim_time 0 ⟨pid, T_init, [], [], [], []⟩
  return (s.time_arr, s.temp_arr, s.power_arr, s.heat_loss_arr)

end Grzejnik

namespace AC

/-- State of the `PIDController` class of `src/ac.py`. -/
structure PIDController (K : Type) where
  kp : K
  ti : K
  td : K
  tp : K
  integral : K
  prev_error : K
deriving DecidableEq, Repr

variable {K : Type} [LinearOrderedField K]

/-- `PIDController.__init__(kp, tp, ti, td)` of `src/ac.py`. -/
def PIDController.init (kp tp ti td : K) : PIDController K :=
  ⟨kp, ti, td, tp, 0, 0⟩

/-- `PIDController.symulacja_PID(setpoint, measured_value)` of `src/ac.py`:
returns the (unclamped) output together with the mutated object. -/
def PIDController.symulacja_PID (c : PIDController K) (setpoint measured_value : K) :
    Except PyErr (K × PIDController K) := do
  let error := setpoint - measured_value
  let integral := c.integral + c.prev_error
  let derivative ← pydiv (error - c.prev_error) c.tp
  let r ← pydiv c.tp c.ti
  let output := c.kp * (error + r * integral + c.td * derivative)
  return (output, { c with integral := integral, prev_error := error })

/-- `heat_loss_model(current_temp, external_temp, window_open, wall_thickness)`
of `src/ac.py`.  The window-open branch takes a square root, so the model
lives over `ℝ`. -/
noncomputable def heat_loss_model (current_temp external_temp : ℝ) (window_open : Bool)
    (wall_thickness : ℝ) : Except PyErr ℝ := do
  let k_wall : ℝ := (0.8 / 1.2 + 0.2 / 0.04)⁻¹
  let wall_area : ℝ := 10.0
  let heat_loss ← pydiv (k_wall * wall_area * (current_temp - external_temp))
    (wall_thickness / 100)
  if window_open then
    let delta_temp := |current_temp - external_temp|
    let external_temp_k := external_temp + 273.15
    let v ← pydiv (9.81 * 0.1 * delta_temp) external_temp_k
    let airflow_velocity := 0.5 * Real.sqrt v
    let airflow_rate := airflow_velocity
    return heat_loss + airflow_rate * 1.225 * 1005 * (current_temp - external_temp)
  else
    return heat_loss

/-- `calculate_overshoot(temperature_points, setpoint)` of `src/ac.py`. -/
def calculate_overshoot (temperature_points : List K) (setpoint : K) :
    Except PyErr K := do
  let h_max ← pymax temperature_points
  let h_ust := setpoint
  let r ← pydiv (h_max - h_ust) h_ust
  return r * 100

/-- Loop state of `symulacja` in `src/ac.py`. -/
structure SimSt where
  pid : PIDController ℝ
  current_temp : ℝ
  time_points : List ℝ
  temperature_points : List ℝ

/-- One iteration of the `for i in range(steps)` loop of `symulacja`
(`src/ac.py`), at loop index `i`. -/
noncomputable def acStep (setpoint ac_power external_temp : ℝ)
    (manual_window_open : Bool) (random_openings : List (ℝ × ℝ))
    (wall_thickness tp : ℝ) (i : ℕ) (s : SimSt) : Except PyErr SimSt := do
  let current_time : ℝ := (i : ℝ) * tp
  let window_open := manual_window_open ||
    random_openings.any (fun w => decide (w.1 ≤ current_time) && decide (current_time ≤ w.2))
  let (raw_output, pid) ← s.pid.symulacja_PID setpoint s.current_temp
  let thermostat := npClip raw_output 0 ac_power
  let loss ← heat_loss_model s.current_temp external_temp window_open wall_thickness
  let dT := (thermostat - loss) / (40.0 * 1.225 * 1005) * tp
  let current_temp := s.current_temp + dT
  return ⟨pid, current_temp,
    s.time_points ++ [current_time / 60], s.temperature_points ++ [current_temp]⟩

/-- The `symulacja` loop of `src/ac.py`, running `n` further iterations
starting at loop index `i`. -/
noncomputable def acRun (setpoint ac_power external_temp : ℝ)
    (manual_window_open : Bool) (random_openings : List (ℝ × ℝ))
    (wall_thickness tp : ℝ) : ℕ → ℕ → SimSt → Except PyErr SimSt
  | 0, _, s => .ok s
  | n + 1, i, s =>
    match acStep setpoint ac_power external_temp manual_window_open random_openings
      wall_thickness tp i s with
    | .error err => .error err
    | .ok s' =>
      acRun setpoint ac_power external_temp manual_window_open random_openings
        wall_thickness tp n (i + 1) s'

/-- `symulacja(...)` of `src/ac.py`, returning
`(time_points, temperature_points)`.  The overshoot statistic is computed
(and can raise) before the result is returned, exactly as in the source. -/
noncomputable def symulacja (setpoint initial_temp total_time ac_power external_temp : ℝ)
    (manual_window_open : Bool) (random_openings : List (ℝ × ℝ))
    (wall_thickness kp ti td tp : ℝ) : Except PyErr (List ℝ × List ℝ) := do
  let pid := PIDController.init kp tp ti td
  let q ← pydiv total_time tp
  let steps := (pyInt q).toNat
  let s ← acRun setpoint ac_power external_temp manual_window_open random_openings
    wall_thickness tp steps 0 ⟨pid, initial_temp, [], []⟩
  let _overshoot ← calculate_overshoot s.temperature_points setpoint
  return (s.time_points, s.temperature_points)

end AC

namespace CK

/-- State of the `PIDController` class of
`src/.ipynb_checkpoints/ac-checkpoint.py`. -/
structure PIDController (K : Type) where
  kp : K
  ti : K
  td : K
  integral : K
  prev_error : K
  clamp_min : K
  clamp_max : K
deriving DecidableEq, Repr

variable {K : Type} [LinearOrderedField K]

/-- `PIDController.__init__(W)` of the checkpoint file: fixed gains
`kp = 50`, `ti = 1`, `td = 0.01` and clamp bounds `(-W, W)`. -/
def PIDController.init (W : K) : PIDController K :=
  ⟨50, 1, 0.01, 0, 0, -W, W⟩

/-- `PIDController.symulacja_PID(setpoint, measured_value, tp)` of the
checkpoint file: the integral is accumulated as `error * tp` and then clamped
to `[-clamp_max/kp, clamp_max/kp]`; the output is clamped to
`[clamp_min, clamp_max]`. -/
def PIDController.symulacja_PID (c : PIDController K) (setpoint measured_value tp : K) :
    Except PyErr (K × PIDController K) := do
  let error := setpoint - measured_value
  let integral := c.integral + error * tp
  let lo ← pydiv (-c.clamp_max) c.kp
  let hi ← pydiv c.clamp_max c.kp
  let integral := npClip integral lo hi
  let derivative ← pydiv (error - c.prev_error) tp
  let r₁ ← pydiv tp c.ti
  let r₂ ← pydiv c.td tp
  let output := c.kp * (error + r₁ * integral + r₂ * derivative)
  let output := npClip output c.clamp_min c.clamp_max
  return (output, { c with integral := integral, prev_error := error })

/-- Loop state of `symulacja` in the checkpoint file. -/
structure SimSt where
  pid : PIDController ℚ
  current_temp : ℚ
  time_points : List ℚ
  temperature_points : List ℚ
deriving DecidableEq, Repr

/-- One iteration of the `for t in range(int(total_time / st))` loop of the
checkpoint `symulacja`, at loop index `t`.  The constants are the ones bound
at the top of the function: `st = 0.1`, ambient temperature `15`,
`num_people = 0`, `heat_per_person = 0.0428`, `k_loss = 5`, capacitance
`V * g * c = 30 * 1.225 * 1005` and `W = 1500`. -/
def ckStep (setpoint : ℚ) (t : ℕ) (s : SimSt) : Except PyErr SimSt := do
  let st : ℚ := 0.1
  let (raw_output, pid) ← s.pid.symulacja_PID setpoint s.current_temp st
  let thermostat := npClip raw_output (-1500) 1500
  let heat_loss := 5.0 * (s.current_temp - 15.0)
  let people_heat : ℚ := 0 * 0.0428
  let dT := (thermostat - heat_loss + people_heat) / (30.0 * 1.225 * 1005.0) * st
  let current_temp := s.current_temp + dT
  return ⟨pid, current_temp,
    s.time_points ++ [(t : ℚ) * st], s.temperature_points ++ [current_temp]⟩

/-- The checkpoint `symulacja` loop, running `n` further iterations starting
at loop index `t`. -/
def ckRun (setpoint : ℚ) : ℕ → ℕ → SimSt → Except PyErr SimSt
  | 0, _, s => .ok s
  | n + 1, t, s =>
    match ckStep setpoint t s with
    | .error err => .error err
    | .ok s' => ckRun setpoint n (t + 1) s'

/-- `symulacja(setpoint)` of the checkpoint file, returning
`(time_points, temperature_points)`: `st = 0.1`, `total_time = 3600`, initial
temperature equal to the ambient temperature `15`. -/
def symulacja (setpoint : ℚ) : Except PyErr (List ℚ × List ℚ) := do
  let st : ℚ := 0.1
  let total_time : ℚ := 3600
  let pid := PIDController.init (1500 : ℚ)
  let steps := (pyInt (total_time / st)).toNat
  let s ← ckRun setpoint steps 0 ⟨pid, 15.0, [], []⟩
  return (s.time_points, s.temperature_points)

end CK

instance {ε α : Type} [DecidableEq ε] [DecidableEq α] : DecidableEq (Except ε α) := fun
  | .error a, .error b => decidable_of_iff (a = b) (by simp)
  | .error _, .ok _ => .isFalse (by simp)
  | .ok _, .error _ => .isFalse (by simp)
  | .ok a, .ok b => decidable_of_iff (a = b) (by simp)

/-- Binding a successful `Except` computation applies the continuation. -/
@[simp] theorem exBind_ok {ε α β : Type} (a : α) (f : α → Except ε β) :
    (Except.ok a : Except ε α) >>= f = f a := rfl

/-- Binding a failed `Except` computation propagates the error. -/
@[simp] theorem exBind_err {ε α β : Type} (e : ε) (f : α → Except ε β) :
    (Except.error e : Except ε α) >>= f = .error e := rfl

/-- Mapping over a successful `Except` computation applies the function. -/
@[simp] theorem exMap_ok {ε α β : Type} (a : α) (f : α → β) :
    f <$> (Except.ok a : Except ε α) = .ok (f a) := rfl

/-- Mapping over a failed `Except` computation propagates the error. -/
@[simp] theorem exMap_err {ε α β : Type} (e : ε) (f : α → β) :
    f <$> (Except.error e : Except ε α) = .error e := rfl

/-- `pure` in the `Except` monad is `Except.ok`. -/
@[simp] theorem exPure_eq {ε α : Type} (a : α) :
    (pure a : Except ε α) = .ok a := rfl

/-- `Except.map` on a successful computation applies the function. -/
@[simp] theorem exceptMap_ok {ε α β : Type} (a : α) (f : α → β) :
    Except.map f (Except.ok a : Except ε α) = .ok (f a) := rfl

/-- `Except.map` on a failed computation propagates the error. -/
@[simp] theorem exceptMap_err {ε α β : Type} (e : ε) (f : α → β) :
    Except.map f (Except.error e : Except ε α) = .error e := rfl

/-- A `np.clip` result lies between the bounds whenever the bounds are
ordered. -/
theorem npClip_bounds {K : Type} [LinearOrderedField K] (x lo hi : K) (h : lo ≤ hi) :
    lo ≤ npClip x lo hi ∧ npClip x lo hi ≤ hi :=
  ⟨le_min (le_max_right x lo) h, min_le_right _ _⟩

/-- Claim C3: every `PI.update` call of the incremental (velocity-form) PI
controller of `src/grzejnik.py` returns
`clamp(u_prev + Kp * ((e - e_prev) + (Tp/Ti) * e), u_min, u_max)` with
`e = setpoint - measurement`, stores exactly that clamped output as `u_prev`
and the error as `e_prev` for the next call, and its observable behaviour
does not depend on the remaining mutable field `delta_u`. -/
theorem claim3_velocity_form_PI (c : Grzejnik.PI ℚ) (sp m : ℚ) (hTi : c.Ti ≠ 0) :
    (∃ u c', c.update sp m = .ok (u, c') ∧
      u = npClip (c.u_prev + c.kp * (((sp - m) - c.e_prev) + c.Tp / c.Ti * (sp - m)))
            c.u_min c.u_max ∧
      c'.u_prev = u ∧ c'.e_prev = sp - m ∧
      c'.kp = c.kp ∧ c'.Ti = c.Ti ∧ c'.Tp = c.Tp ∧
      c'.u_min = c.u_min ∧ c'.u_max = c.u_max) ∧
    ∀ d : ℚ, (Grzejnik.PI.update { c with delta_u := d } sp m).map
        (fun p => (p.1, p.2.u_prev, p.2.e_prev)) =
      (c.update sp m).map (fun p => (p.1, p.2.u_prev, p.2.e_prev)) := by
  constructor
  · have h : c.update sp m = .ok
        (npClip (c.u_prev + c.kp * (((sp - m) - c.e_prev) + c.Tp / c.Ti * (sp - m)))
          c.u_min c.u_max,
         { c with
            e_prev := sp - m,
            u_prev := npClip (c.u_prev + c.kp * (((sp - m) - c.e_prev)
              + c.Tp / c.Ti * (sp - m))) c.u_min c.u_max,
            delta_u := c.kp * (((sp - m) - c.e_prev) + c.Tp / c.Ti * (sp - m)) }) := by
      unfold Grzejnik.PI.update pydiv
      rw [if_neg hTi]
      rfl
    exact ⟨_, _, h, rfl, rfl, rfl, rfl, rfl, rfl, rfl, rfl⟩
  · intro d
    simp [Grzejnik.PI.update, pydiv, hTi]

/-- Concrete instance of `claim3_velocity_form_PI`. -/
theorem claim3_witness :
    ((3 : ℚ) ≠ 0) ∧
    ((∃ u c', Grzejnik.PI.update (⟨2, 3, 1, 0, 10, 4, 1, 7⟩ : Grzejnik.PI ℚ) 6 1 = .ok (u, c') ∧
      u = npClip (4 + 2 * (((6 - 1) - 1) + 1 / 3 * (6 - 1))) 0 10 ∧
      c'.u_prev = u ∧ c'.e_prev = 6 - 1 ∧
      c'.kp = 2 ∧ c'.Ti = 3 ∧ c'.Tp = 1 ∧
      c'.u_min = 0 ∧ c'.u_max = 10) ∧
    ∀ d : ℚ, (Grzejnik.PI.update { (⟨2, 3, 1, 0, 10, 4, 1, 7⟩ : Grzejnik.PI ℚ) with
        delta_u := d } 6 1).map
        (fun p => (p.1, p.2.u_prev, p.2.e_prev)) =
      (Grzejnik.PI.update (⟨2, 3, 1, 0, 10, 4, 1, 7⟩ : Grzejnik.PI ℚ) 6 1).map
        (fun p => (p.1, p.2.u_prev, p.2.e_prev))) :=
  ⟨by decide, claim3_velocity_form_PI ⟨2, 3, 1, 0, 10, 4, 1, 7⟩ 6 1 (by decide)⟩

/-- Claim C1 (amended): the velocity-form PI of `src/grzejnik.py` and the
checkpoint PID clamp every returned output to their configured bounds; the
`PIDController` of `src/ac.py` has no output bounds and returns the raw
control law value (see `claim1_counterexample`). -/
theorem claim1_output_clamped :
    (∀ (c : Grzejnik.PI ℚ) (sp m u : ℚ) (c' : Grzejnik.PI ℚ),
        c.u_min ≤ c.u_max → c.update sp m = .ok (u, c') →
        c.u_min ≤ u ∧ u ≤ c.u_max) ∧
    (∀ (d : CK.PIDController ℚ) (sp m tp u : ℚ) (d' : CK.PIDController ℚ),
        d.clamp_min ≤ d.clamp_max → d.symulacja_PID sp m tp = .ok (u, d') →
        d.clamp_min ≤ u ∧ u ≤ d.clamp_max) := by
  constructor
  · intro c sp m u c' hb h
    by_cases hTi : c.Ti = 0
    · simp [Grzejnik.PI.update, pydiv, hTi] at h
    · simp [Grzejnik.PI.update, pydiv, hTi] at h
      obtain ⟨h1, -⟩ := h
      rw [← h1]
      exact npClip_bounds _ _ _ hb
  · intro d sp m tp u d' hb h
    by_cases hkp : d.kp = 0
    · simp [CK.PIDController.symulacja_PID, pydiv, hkp] at h
    by_cases htp : tp = 0
    · simp [CK.PIDController.symulacja_PID, pydiv, hkp, htp] at h
    by_cases hti : d.ti = 0
    · simp [CK.PIDController.symulacja_PID, pydiv, hkp, htp, hti] at h
    simp [CK.PIDController.symulacja_PID, pydiv, hkp, htp, hti] at h
    obtain ⟨h1, -⟩ := h
    rw [← h1]
    exact npClip_bounds _ _ _ hb

/-- Concrete instance of `claim1_output_clamped`. -/
theorem claim1_witness :
    ((0 : ℚ) ≤ 10 ∧
      Grzejnik.PI.update (⟨1, 1, 1, 0, 10, 0, 0, 0⟩ : Grzejnik.PI ℚ) 100 0 =
        .ok (10, ⟨1, 1, 1, 0, 10, 10, 100, 200⟩) ∧
      (0 : ℚ) ≤ 10 ∧ (10 : ℚ) ≤ 10) ∧
    ((-1500 : ℚ) ≤ 1500 ∧
      CK.PIDController.symulacja_PID (⟨50, 1, 1 / 100, 0, 0, -1500, 1500⟩ : CK.PIDController ℚ)
          100 0 1 =
        .ok (1500, ⟨50, 1, 1 / 100, 30, 100, -1500, 1500⟩) ∧
      (-1500 : ℚ) ≤ 1500 ∧ (1500 : ℚ) ≤ 1500) := by
  have h1 : Grzejnik.PI.update (⟨1, 1, 1, 0, 10, 0, 0, 0⟩ : Grzejnik.PI ℚ) 100 0 =
      .ok (10, ⟨1, 1, 1, 0, 10, 10, 100, 200⟩) := by
    norm_num [Grzejnik.PI.update, pydiv, npClip, min_def, max_def]
  have h2 : CK.PIDController.symulacja_PID
      (⟨50, 1, 1 / 100, 0, 0, -1500, 1500⟩ : CK.PIDController ℚ) 100 0 1 =
      .ok (1500, ⟨50, 1, 1 / 100, 30, 100, -1500, 1500⟩) := by
    norm_num [CK.PIDController.symulacja_PID, pydiv, npClip, min_def, max_def]
  exact ⟨⟨by norm_num, h1,
    claim1_output_clamped.1 ⟨1, 1, 1, 0, 10, 0, 0, 0⟩ 100 0 10
      ⟨1, 1, 1, 0, 10, 10, 100, 200⟩ (by norm_num) h1⟩,
   ⟨by norm_num, h2,
    claim1_output_clamped.2 ⟨50, 1, 1 / 100, 0, 0, -1500, 1500⟩ 100 0 1 1500
      ⟨50, 1, 1 / 100, 30, 100, -1500, 1500⟩ (by norm_num) h2⟩⟩

/-- Counterexample to Claim C1 as stated: the `src/ac.py` controller returns
an output of `2000000`, far outside the actuator bounds `[0, 1500]` that the
surrounding application configures (`ac_power = 1500`). -/
theorem claim1_counterexample :
    (AC.PIDController.symulacja_PID (⟨1, 1, 1, 1, 0, 0⟩ : AC.PIDController ℚ)
        1000000 0).map (fun p => p.1) = .ok 2000000 ∧
    ¬ ((0 : ℚ) ≤ 2000000 ∧ (2000000 : ℚ) ≤ 1500) := by
  norm_num [AC.PIDController.symulacja_PID, pydiv]

/-- Claim C4 (amended): the `src/ac.py` PID accumulates the integral state as
`integral += prev_error` (the previous error, with no `Tp` scaling), while
the checkpoint PID accumulates `integral += e * Tp` and then clamps it to
`[-clamp_max/kp, clamp_max/kp]`; both compute the derivative as
`(e - e_prev) / Tp`. -/
theorem claim4_integral_accumulation :
    (∀ (c : AC.PIDController ℚ) (sp m : ℚ), c.tp ≠ 0 → c.ti ≠ 0 →
      ∃ out c', c.symulacja_PID sp m = .ok (out, c') ∧
        c'.integral = c.integral + c.prev_error ∧
        c'.prev_error = sp - m ∧
        out = c.kp * ((sp - m) + c.tp / c.ti * (c.integral + c.prev_error)
          + c.td * (((sp - m) - c.prev_error) / c.tp))) ∧
    (∀ (d : CK.PIDController ℚ) (sp m tp : ℚ), d.kp ≠ 0 → tp ≠ 0 → d.ti ≠ 0 →
      ∃ out d', d.symulacja_PID sp m tp = .ok (out, d') ∧
        d'.integral = npClip (d.integral + (sp - m) * tp)
          (-d.clamp_max / d.kp) (d.clamp_max / d.kp) ∧
        d'.prev_error = sp - m ∧
        out = npClip (d.kp * ((sp - m) + tp / d.ti * d'.integral
          + d.td / tp * (((sp - m) - d.prev_error) / tp))) d.clamp_min d.clamp_max) := by
  constructor
  · intro c sp m htp hti
    have h : c.symulacja_PID sp m = .ok
        (c.kp * ((sp - m) + c.tp / c.ti * (c.integral + c.prev_error)
          + c.td * (((sp - m) - c.prev_error) / c.tp)),
         { c with integral := c.integral + c.prev_error, prev_error := sp - m }) := by
      simp [AC.PIDController.symulacja_PID, pydiv, htp, hti]
    exact ⟨_, _, h, rfl, rfl, rfl⟩
  · intro d sp m tp hkp htp hti
    have h : d.symulacja_PID sp m tp = .ok
        (npClip (d.kp * ((sp - m) + tp / d.ti *
            (npClip (d.integral + (sp - m) * tp) (-d.clamp_max / d.kp) (d.clamp_max / d.kp))
          + d.td / tp * (((sp - m) - d.prev_error) / tp))) d.clamp_min d.clamp_max,
         { d with
            integral := npClip (d.integral + (sp - m) * tp)
              (-d.clamp_max / d.kp) (d.clamp_max / d.kp),
            prev_error := sp - m }) := by
      simp [CK.PIDController.symulacja_PID, pydiv, hkp, htp, hti]
    exact ⟨_, _, h, rfl, rfl, rfl⟩

/-- Concrete instance of `claim4_integral_accumulation`. -/
theorem claim4_witness :
    ((1 : ℚ) ≠ 0 ∧ (2 : ℚ) ≠ 0 ∧
      ∃ out c', AC.PIDController.symulacja_PID (⟨3, 2, 4, 1, 6, 7⟩ : AC.PIDController ℚ)
          9 1 = .ok (out, c') ∧
        c'.integral = 6 + 7 ∧
        c'.prev_error = 9 - 1 ∧
        out = 3 * ((9 - 1) + 1 / 2 * (6 + 7) + 4 * (((9 - 1) - 7) / 1))) ∧
    ((50 : ℚ) ≠ 0 ∧ (1 : ℚ) ≠ 0 ∧
      ∃ out d', CK.PIDController.symulacja_PID
          (⟨50, 1, 1 / 100, 0, 0, -1500, 1500⟩ : CK.PIDController ℚ) 9 1 1 = .ok (out, d') ∧
        d'.integral = npClip (0 + (9 - 1) * 1) (-1500 / 50) (1500 / 50) ∧
        d'.prev_error = 9 - 1 ∧
        out = npClip (50 * ((9 - 1) + 1 / 1 * d'.integral
          + 1 / 100 / 1 * (((9 - 1) - 0) / 1))) (-1500) 1500) :=
  ⟨⟨by decide, by decide,
    claim4_integral_accumulation.1 ⟨3, 2, 4, 1, 6, 7⟩ 9 1 (by decide) (by decide)⟩,
   ⟨by decide, by decide,
    claim4_integral_accumulation.2 ⟨50, 1, 1 / 100, 0, 0, -1500, 1500⟩ 9 1 1
      (by decide) (by decide) (by decide)⟩⟩

/-- Counterexample to Claim C4 as stated: one `src/ac.py` update starting from
a zero integral with error `5` and `Tp = 1` leaves the integral at `0`, not
at `integral + e * Tp = 5`. -/
theorem claim4_counterexample :
    (AC.PIDController.symulacja_PID (⟨1, 1, 0, 1, 0, 0⟩ : AC.PIDController ℚ) 5 0).map
        (fun p => p.2.integral) = .ok 0 ∧ (0 : ℚ) ≠ 0 + 5 * 1 := by
  norm_num [AC.PIDController.symulacja_PID, pydiv]

/-- Claim C5: `src/ac.py` has no `Ti == 0` or `Tp == 0` guard — the update
raises `ZeroDivisionError` in both cases instead of skipping the term. -/
theorem claim5_division_fault :
    AC.PIDController.symulacja_PID (⟨1, 0, 0, 1, 0, 0⟩ : AC.PIDController ℚ) 1 0
        = .error .zeroDivisionError ∧
    AC.PIDController.symulacja_PID (⟨1, 1, 0, 0, 0, 0⟩ : AC.PIDController ℚ) 1 0
        = .error .zeroDivisionError := by
  constructor <;> norm_num [AC.PIDController.symulacja_PID, pydiv]
/-- Claim C2 (amended): per simulation step, `src/ac.py` and the checkpoint
update the temperature by `(actuator_output - total_loss + gains) /
thermal_capacitance * Tp`, but `simulate_2h` of `src/grzejnik.py` multiplies
only the heat loss by `Tp`: its update is `(P - total_loss * Tp) / C` (the
actuator power enters as if it were an energy). -/
theorem claim2_step_heat_balance :
    (∀ (sp Tp To : ℚ) (t : ℕ) (s s' : Grzejnik.SimSt),
        Grzejnik.gStep sp Tp To t s = .ok s' →
        ∃ P L, s'.power_arr = s.power_arr ++ [P] ∧
          s'.heat_loss_arr = s.heat_loss_arr ++ [L] ∧
          s'.T_room = s.T_room + (P - L * Tp) / (4.0 * 4.0 * 2.5 * 1.2 * 1005.0)) ∧
    (∀ (sp ac_power et : ℝ) (manual : Bool) (openings : List (ℝ × ℝ)) (wt tp : ℝ)
        (i : ℕ) (s s' : AC.SimSt),
        AC.acStep sp ac_power et manual openings wt tp i s = .ok s' →
        ∃ raw pid' loss,
          s.pid.symulacja_PID sp s.current_temp = .ok (raw, pid') ∧
          AC.heat_loss_model s.current_temp et
            (manual || openings.any
              (fun w => decide (w.1 ≤ (i : ℝ) * tp) && decide ((i : ℝ) * tp ≤ w.2))) wt
            = .ok loss ∧
          s'.current_temp = s.current_temp +
            (npClip raw 0 ac_power - loss) / (40.0 * 1.225 * 1005) * tp) ∧
    (∀ (sp : ℚ) (t : ℕ) (s s' : CK.SimSt),
        CK.ckStep sp t s = .ok s' →
        ∃ raw pid',
          s.pid.symulacja_PID sp s.current_temp 0.1 = .ok (raw, pid') ∧
          s'.current_temp = s.current_temp +
            (npClip raw (-1500) 1500 - 5.0 * (s.current_temp - 15.0) + 0 * 0.0428)
              / (30.0 * 1.225 * 1005.0) * 0.1) := by
  refine ⟨?_, ?_, ?_⟩
  · intro sp Tp To t s s' h
    cases hu : s.pid.update sp s.T_room with
    | error e => simp [Grzejnik.gStep, hu] at h
    | ok p =>
      obtain ⟨u, pid'⟩ := p
      simp [Grzejnik.gStep, hu] at h
      subst h
      exact ⟨_, _, rfl, rfl, rfl⟩
  · intro sp ac_power et manual openings wt tp i s s' h
    cases hu : s.pid.symulacja_PID sp s.current_temp with
    | error e => simp [AC.acStep, hu] at h
    | ok p =>
      obtain ⟨raw, pid'⟩ := p
      cases hl : AC.heat_loss_model s.current_temp et
          (manual || openings.any
            (fun w => decide (w.1 ≤ (i : ℝ) * tp) && decide ((i : ℝ) * tp ≤ w.2))) wt with
      | error e => simp [AC.acStep, hu, hl] at h
      | ok loss =>
        simp [AC.acStep, hu, hl] at h
        subst h
        exact ⟨raw, pid', loss, rfl, rfl, rfl⟩
  · intro sp t s s' h
    cases hu : s.pid.symulacja_PID sp s.current_temp 0.1 with
    | error e => simp [CK.ckStep, hu] at h
    | ok p =>
      obtain ⟨raw, pid'⟩ := p
      simp [CK.ckStep, hu] at h
      subst h
      exact ⟨raw, pid', rfl, by norm_num⟩

/-- Counterexample to Claim C2 as stated: one concrete `simulate_2h` step of
`src/grzejnik.py` with `Tp = 2` produces a temperature change of
`(P - L * Tp) / C`, which differs from the claimed `(P - L + gains) / C * Tp`. -/
theorem claim2_counterexample :
    (Grzejnik.gStep 25 2 15 0
        ⟨⟨100, 1, 2, 0, 5000, 0, 0, 0⟩, 20, [], [], [], []⟩).map
        (fun s => (s.T_room, s.power_arr, s.heat_loss_arr))
      = .ok (20 + (1500 - 533 / 16 * 2) / 48240, [1500], [533 / 16]) ∧
    (20 : ℚ) + (1500 - 533 / 16 * 2) / 48240 ≠ 20 + (1500 - 533 / 16 + 0) / 48240 * 2 := by
  constructor
  · norm_num [Grzejnik.gStep, Grzejnik.PI.update, pydiv, npClip, min_def, max_def]
  · norm_num

/-- Concrete instance of `claim2_step_heat_balance` (one step of each
simulation loop). -/
theorem claim2_witness :
    (Grzejnik.gStep 15 1 15 0 ⟨⟨0, 1, 1, 0, 5000, 0, 0, 0⟩, 15, [], [], [], []⟩ =
        .ok ⟨⟨0, 1, 1, 0, 5000, 0, 0, 0⟩, 15, [0], [15], [0], [0]⟩ ∧
      ∃ P L, ([0] : List ℚ) = [] ++ [P] ∧ ([0] : List ℚ) = [] ++ [L] ∧
        (15 : ℚ) = 15 + (P - L * 1) / (4.0 * 4.0 * 2.5 * 1.2 * 1005.0)) ∧
    (AC.acStep 22 0 15 false [] 100 1 0 ⟨⟨0, 1, 1, 1, 0, 0⟩, 16, [], []⟩ =
        .ok ⟨⟨0, 1, 1, 1, 0, 6⟩, 892974 / 55811, [0], [892974 / 55811]⟩ ∧
      ∃ raw pid' loss,
        AC.PIDController.symulacja_PID (⟨0, 1, 1, 1, 0, 0⟩ : AC.PIDController ℝ) 22 16 =
          .ok (raw, pid') ∧
        AC.heat_loss_model 16 15
          (false || List.any ([] : List (ℝ × ℝ))
            (fun w => decide (w.1 ≤ ((0 : ℕ) : ℝ) * 1) && decide (((0 : ℕ) : ℝ) * 1 ≤ w.2))) 100
          = .ok loss ∧
        (892974 / 55811 : ℝ) = 16 + (npClip raw 0 0 - loss) / (40.0 * 1.225 * 1005) * 1) ∧
    (CK.ckStep 15 0 ⟨⟨50, 1, 1 / 100, 0, 0, -1500, 1500⟩, 15, [], []⟩ =
        .ok ⟨⟨50, 1, 1 / 100, 0, 0, -1500, 1500⟩, 15, [0], [15]⟩ ∧
      ∃ raw pid',
        CK.PIDController.symulacja_PID (⟨50, 1, 1 / 100, 0, 0, -1500, 1500⟩ : CK.PIDController ℚ)
          15 15 0.1 = .ok (raw, pid') ∧
        (15 : ℚ) = 15 + (npClip raw (-1500) 1500 - 5.0 * ((15 : ℚ) - 15.0) + 0 * 0.0428)
          / (30.0 * 1.225 * 1005.0) * 0.1) := by
  have hg : Grzejnik.gStep 15 1 15 0 ⟨⟨0, 1, 1, 0, 5000, 0, 0, 0⟩, 15, [], [], [], []⟩ =
      .ok ⟨⟨0, 1, 1, 0, 5000, 0, 0, 0⟩, 15, [0], [15], [0], [0]⟩ := by
    norm_num [Grzejnik.gStep, Grzejnik.PI.update, pydiv, npClip, min_def, max_def]
  have ha : AC.acStep 22 0 15 false [] 100 1 0 ⟨⟨0, 1, 1, 1, 0, 0⟩, 16, [], []⟩ =
      .ok ⟨⟨0, 1, 1, 1, 0, 6⟩, 892974 / 55811, [0], [892974 / 55811]⟩ := by
    norm_num [AC.acStep, AC.PIDController.symulacja_PID, AC.heat_loss_model,
      pydiv, npClip, min_def, max_def]
  have hc : CK.ckStep 15 0 ⟨⟨50, 1, 1 / 100, 0, 0, -1500, 1500⟩, 15, [], []⟩ =
      .ok ⟨⟨50, 1, 1 / 100, 0, 0, -1500, 1500⟩, 15, [0], [15]⟩ := by
    norm_num [CK.ckStep, CK.PIDController.symulacja_PID, pydiv, npClip, min_def, max_def]
  exact ⟨⟨hg, claim2_step_heat_balance.1 15 1 15 0 _ _ hg⟩,
    ⟨ha, claim2_step_heat_balance.2.1 22 0 15 false [] 100 1 0 _ _ ha⟩,
    ⟨hc, claim2_step_heat_balance.2.2 15 0 _ _ hc⟩⟩

/-- Claim C10: in every `simulate_2h` step of `src/grzejnik.py` the recorded
total heat loss is `0.5` times the sum of the wall, door, window and roof
terms only; the computed ground-loss term is excluded, and including it would
change the recorded value whenever the room and outside temperatures
differ. -/
theorem claim10_ground_loss_excluded (sp Tp To : ℚ) (t : ℕ) (s s' : Grzejnik.SimSt)
    (h : Grzejnik.gStep sp Tp To t s = .ok s') :
    s'.heat_loss_arr = s.heat_loss_arr ++
      [(0.2 * (40.0 - 1.8 - 1.35) * (s.T_room - To) + 1.3 * 1.8 * (s.T_room - To)
        + 0.9 * 1.35 * (s.T_room - To) + 0.15 * 16 * (s.T_room - To)) * 0.5] ∧
    (s.T_room ≠ To →
      s'.heat_loss_arr ≠ s.heat_loss_arr ++
        [(0.2 * (40.0 - 1.8 - 1.35) * (s.T_room - To) + 1.3 * 1.8 * (s.T_room - To)
          + 0.9 * 1.35 * (s.T_room - To) + 0.15 * 16 * (s.T_room - To)
          + 0.3 * 16 * (s.T_room - To)) * 0.5]) := by
  have harr : s'.heat_loss_arr = s.heat_loss_arr ++
      [(0.2 * (40.0 - 1.8 - 1.35) * (s.T_room - To) + 1.3 * 1.8 * (s.T_room - To)
        + 0.9 * 1.35 * (s.T_room - To) + 0.15 * 16 * (s.T_room - To)) * 0.5] := by
    cases hu : s.pid.update sp s.T_room with
    | error e => simp [Grzejnik.gStep, hu] at h
    | ok p =>
      obtain ⟨u, pid'⟩ := p
      simp [Grzejnik.gStep, hu] at h
      subst h
      rfl
  refine ⟨harr, fun hne hgr => ?_⟩
  rw [harr] at hgr
  have hval := List.append_cancel_left hgr
  simp only [List.cons.injEq, and_true] at hval
  have hd : s.T_room - To ≠ 0 := sub_ne_zero_of_ne hne
  apply hd
  nlinarith [hval]

/-- Concrete instance of `claim10_ground_loss_excluded`. -/
theorem claim10_witness :
    (Grzejnik.gStep 20 1 15 0 ⟨⟨0, 1, 1, 0, 5000, 0, 0, 0⟩, 20, [], [], [], []⟩ =
      .ok ⟨⟨0, 1, 1, 0, 5000, 0, 0, 0⟩, 20 + (0 - 533 / 16 * 1) / 48240,
        [0], [20], [0], [533 / 16]⟩) ∧
    (([533 / 16] : List ℚ) = [] ++
      [(0.2 * (40.0 - 1.8 - 1.35) * ((20 : ℚ) - 15) + 1.3 * 1.8 * ((20 : ℚ) - 15)
        + 0.9 * 1.35 * ((20 : ℚ) - 15) + 0.15 * 16 * ((20 : ℚ) - 15)) * 0.5] ∧
      ((20 : ℚ) ≠ 15 → ([533 / 16] : List ℚ) ≠ [] ++
        [(0.2 * (40.0 - 1.8 - 1.35) * ((20 : ℚ) - 15) + 1.3 * 1.8 * ((20 : ℚ) - 15)
          + 0.9 * 1.35 * ((20 : ℚ) - 15) + 0.15 * 16 * ((20 : ℚ) - 15)
          + 0.3 * 16 * ((20 : ℚ) - 15)) * 0.5])) := by
  have hg : Grzejnik.gStep 20 1 15 0 ⟨⟨0, 1, 1, 0, 5000, 0, 0, 0⟩, 20, [], [], [], []⟩ =
      .ok ⟨⟨0, 1, 1, 0, 5000, 0, 0, 0⟩, 20 + (0 - 533 / 16 * 1) / 48240,
        [0], [20], [0], [533 / 16]⟩ := by
    norm_num [Grzejnik.gStep, Grzejnik.PI.update, pydiv, npClip, min_def, max_def]
  exact ⟨hg, claim10_ground_loss_excluded 20 1 15 0 _ _ hg⟩

/-- Claim C9: when `0 < total_time < tp`, the step count of `symulacja` in
`src/ac.py` is zero, the loop never runs, and `calculate_overshoot` raises
`ValueError` by taking `max` of the empty temperature list. -/
theorem claim9_empty_run_value_error (sp T0 total ac_power et : ℝ) (manual : Bool)
    (openings : List (ℝ × ℝ)) (wt kp ti td tp : ℝ)
    (h0 : 0 < total) (h1 : total < tp) :
    AC.symulacja sp T0 total ac_power et manual openings wt kp ti td tp
      = .error .valueError := by
  have htp : 0 < tp := h0.trans h1
  have hq0 : 0 ≤ total / tp := le_of_lt (div_pos h0 htp)
  have hq1 : total / tp < 1 := (div_lt_one htp).mpr h1
  have hfl : ⌊total / tp⌋ = 0 := Int.floor_eq_zero_iff.mpr ⟨hq0, hq1⟩
  unfold AC.symulacja
  simp [pydiv, htp.ne', pyInt, hq0, hfl, AC.acRun, AC.calculate_overshoot, pymax]

/-- Concrete instance of `claim9_empty_run_value_error`. -/
theorem claim9_witness :
    ((0 : ℝ) < 1 ∧ (1 : ℝ) < 2) ∧
    AC.symulacja 1 0 1 0 0 false [] 1 0 1 0 2 = .error .valueError :=
  ⟨⟨one_pos, one_lt_two⟩,
    claim9_empty_run_value_error 1 0 1 0 0 false [] 1 0 1 0 2 one_pos one_lt_two⟩

/-- Claim C6: `symulacja` of `src/ac.py` performs no parameter validation — a
zero timestep raises `ZeroDivisionError` at the step-count division, and a
negative timestep runs an empty loop and raises `ValueError` from
`calculate_overshoot`; neither is a descriptive configuration error. -/
theorem claim6_no_config_validation :
    AC.symulacja 22 15 7200 1500 5 false [] 40 2 12 2 0 = .error .zeroDivisionError ∧
    AC.symulacja 22 15 7200 1500 5 false [] 40 2 12 2 (-1) = .error .valueError := by
  constructor
  · unfold AC.symulacja
    simp [pydiv]
  · have hceil : ⌈(7200 : ℝ) / (-1)⌉ = -7200 := by
      rw [show (7200 : ℝ) / (-1) = ((-7200 : ℤ) : ℝ) by norm_num, Int.ceil_intCast]
    have hle : ¬ (0 : ℝ) ≤ (7200 : ℝ) / (-1) := by norm_num
    unfold AC.symulacja
    simp [pydiv, pyInt, hle, hceil, AC.acRun, AC.calculate_overshoot, pymax]

/-- Dissecting a successful `Except` bind. -/
theorem exBind_eq_ok {ε α β : Type} {x : Except ε α} {f : α → Except ε β} {b : β}
    (h : x >>= f = .ok b) : ∃ a, x = .ok a ∧ f a = .ok b := by
  cases x with
  | error e => simp at h
  | ok a => exact ⟨a, rfl, h⟩

/-- Python `int(x).toNat` agrees with `⌊x⌋.toNat`: truncation and floor differ
only at negative arguments, where both clamp to zero. -/
theorem pyInt_toNat {K : Type} [LinearOrderedField K] [FloorRing K] (x : K) :
    (pyInt x).toNat = ⌊x⌋.toNat := by
  unfold pyInt
  split
  · rfl
  · next hx =>
    push_neg at hx
    have h1 : ⌈x⌉ ≤ 0 := by
      rw [show (0 : ℤ) = ((0 : ℤ)) from rfl, Int.ceil_le]
      exact_mod_cast hx.le
    have h2 : ⌊x⌋ ≤ 0 := le_trans (Int.floor_le_ceil x) h1
    rw [Int.toNat_of_nonpos h1, Int.toNat_of_nonpos h2]

/-- Array bookkeeping of one `simulate_2h` step. -/
theorem gStep_arrays (sp Tp To : ℚ) (t : ℕ) (s s' : Grzejnik.SimSt)
    (h : Grzejnik.gStep sp Tp To t s = .ok s') :
    s'.time_arr = s.time_arr ++ [(t : ℚ) * Tp / 60] ∧
    s'.temp_arr = s.temp_arr ++ [s.T_room] ∧
    s'.power_arr.length = s.power_arr.length + 1 ∧
    s'.heat_loss_arr.length = s.heat_loss_arr.length + 1 := by
  cases hu : s.pid.update sp s.T_room with
  | error e => simp [Grzejnik.gStep, hu] at h
  | ok p =>
    obtain ⟨u, pid'⟩ := p
    simp [Grzejnik.gStep, hu] at h
    subst h
    exact ⟨rfl, rfl, by simp, by simp⟩

/-- Array bookkeeping of the `simulate_2h` loop. -/
theorem gRun_arrays (sp Tp To : ℚ) :
    ∀ (n t : ℕ) (s s' : Grzejnik.SimSt),
      Grzejnik.gRun sp Tp To n t s = .ok s' →
      s'.time_arr = s.time_arr ++ (List.range' t n).map (fun i : ℕ => (i : ℚ) * Tp / 60) ∧
      s'.temp_arr.length = s.temp_arr.length + n ∧
      s'.power_arr.length = s.power_arr.length + n ∧
      s'.heat_loss_arr.length = s.heat_loss_arr.length + n := by
  intro n
  induction n with
  | zero =>
    intro t s s' h
    simp only [Grzejnik.gRun] at h
    simp only [Except.ok.injEq] at h
    subst h
    simp
  | succ n ih =>
    intro t s s' h
    simp only [Grzejnik.gRun] at h
    cases hst : Grzejnik.gStep sp Tp To t s with
    | error e => rw [hst] at h; exact absurd h (by simp)
    | ok s₁ =>
      rw [hst] at h
      obtain ⟨ht, h2, h3, h4⟩ := ih (t + 1) s₁ s' h
      obtain ⟨st1, st2, st3, st4⟩ := gStep_arrays sp Tp To t s s₁ hst
      refine ⟨?_, ?_, ?_, ?_⟩
      · simp [ht, st1, List.range'_succ]
      · rw [h2, st2]; simp [List.length_append]; omega
      · omega
      · omega

/-- Array bookkeeping of one `symulacja` step of `src/ac.py`. -/
theorem acStep_arrays (sp pw et : ℝ) (manual : Bool) (ops : List (ℝ × ℝ)) (wt tp : ℝ)
    (i : ℕ) (s s' : AC.SimSt) (h : AC.acStep sp pw et manual ops wt tp i s = .ok s') :
    s'.time_points = s.time_points ++ [(i : ℝ) * tp / 60] ∧
    s'.temperature_points.length = s.temperature_points.length + 1 := by
  unfold AC.acStep at h
  obtain ⟨p, hu, h⟩ := exBind_eq_ok h
  obtain ⟨raw, pid'⟩ := p
  obtain ⟨loss, hl, h⟩ := exBind_eq_ok h
  simp only [exPure_eq, Except.ok.injEq] at h
  subst h
  exact ⟨rfl, by simp⟩

/-- Array bookkeeping of the `symulacja` loop of `src/ac.py`. -/
theorem acRun_arrays (sp pw et : ℝ) (manual : Bool) (ops : List (ℝ × ℝ)) (wt tp : ℝ) :
    ∀ (n i : ℕ) (s s' : AC.SimSt),
      AC.acRun sp pw et manual ops wt tp n i s = .ok s' →
      s'.time_points = s.time_points ++ (List.range' i n).map (fun j : ℕ => (j : ℝ) * tp / 60) ∧
      s'.temperature_points.length = s.temperature_points.length + n := by
  intro n
  induction n with
  | zero =>
    intro i s s' h
    simp only [AC.acRun] at h
    simp only [Except.ok.injEq] at h
    subst h
    simp
  | succ n ih =>
    intro i s s' h
    simp only [AC.acRun] at h
    cases hst : AC.acStep sp pw et manual ops wt tp i s with
    | error e => rw [hst] at h; exact absurd h (by simp)
    | ok s₁ =>
      rw [hst] at h
      obtain ⟨ht, h2⟩ := ih (i + 1) s₁ s' h
      obtain ⟨st1, st2⟩ := acStep_arrays sp pw et manual ops wt tp i s s₁ hst
      refine ⟨?_, ?_⟩
      · simp [ht, st1, List.range'_succ]
      · omega

/-- Element access into the time series built by the loops. -/
theorem timePoints_getD {K : Type} [LinearOrderedField K] (g : ℕ → K) (n i : ℕ)
    (h : i < n) : ((List.range' 0 n).map g).getD i 0 = g i := by
  rw [List.getD_eq_getElem?_getD, List.getElem?_map, List.getElem?_range' _ _ h]
  simp

/-- A checkpoint PID update always succeeds when `kp`, `tp` and `ti` are
nonzero, and mutates only `integral` and `prev_error`. -/
theorem CK_update_ok (d : CK.PIDController ℚ) (sp m tp : ℚ)
    (hkp : d.kp ≠ 0) (htp : tp ≠ 0) (hti : d.ti ≠ 0) :
    d.symulacja_PID sp m tp = .ok
      (npClip (d.kp * ((sp - m) + tp / d.ti *
          (npClip (d.integral + (sp - m) * tp) (-d.clamp_max / d.kp) (d.clamp_max / d.kp))
        + d.td / tp * (((sp - m) - d.prev_error) / tp))) d.clamp_min d.clamp_max,
       { d with
          integral := npClip (d.integral + (sp - m) * tp)
            (-d.clamp_max / d.kp) (d.clamp_max / d.kp),
          prev_error := sp - m }) := by
  simp [CK.PIDController.symulacja_PID, pydiv, hkp, htp, hti]

/-- A checkpoint simulation step always succeeds when the controller gains
are nonzero; it appends `t * st` to the time series and one value to the
temperature series. -/
theorem ckStep_props (sp : ℚ) (t : ℕ) (s : CK.SimSt)
    (hkp : s.pid.kp ≠ 0) (hti : s.pid.ti ≠ 0) :
    ∃ pid' T', CK.ckStep sp t s = .ok ⟨pid', T',
        s.time_points ++ [(t : ℚ) * 0.1], s.temperature_points ++ [T']⟩ ∧
      pid'.kp = s.pid.kp ∧ pid'.ti = s.pid.ti := by
  have hd := CK_update_ok s.pid sp s.current_temp 0.1 hkp (by norm_num) hti
  refine ⟨{ s.pid with
      integral := npClip (s.pid.integral + (sp - s.current_temp) * 0.1)
        (-s.pid.clamp_max / s.pid.kp) (s.pid.clamp_max / s.pid.kp),
      prev_error := sp - s.current_temp },
    s.current_temp +
      (npClip (npClip (s.pid.kp * ((sp - s.current_temp) + 0.1 / s.pid.ti *
            (npClip (s.pid.integral + (sp - s.current_temp) * 0.1)
              (-s.pid.clamp_max / s.pid.kp) (s.pid.clamp_max / s.pid.kp))
          + s.pid.td / 0.1 * (((sp - s.current_temp) - s.pid.prev_error) / 0.1)))
          s.pid.clamp_min s.pid.clamp_max) (-1500) 1500
        - 5.0 * (s.current_temp - 15.0) + 0 * 0.0428) / (30.0 * 1.225 * 1005.0) * 0.1,
    ?_, rfl, rfl⟩
  simp only [CK.ckStep]
  rw [hd]
  rfl

/-- The checkpoint loop always succeeds from a state with nonzero gains, its
time series extends by `t * st, (t+1) * st, …`, and the temperature series
grows by one sample per step. -/
theorem ckRun_props (sp : ℚ) :
    ∀ (n t : ℕ) (s : CK.SimSt), s.pid.kp ≠ 0 → s.pid.ti ≠ 0 →
      ∃ s', CK.ckRun sp n t s = .ok s' ∧
        s'.time_points = s.time_points ++ (List.range' t n).map (fun i : ℕ => (i : ℚ) * 0.1) ∧
        s'.temperature_points.length = s.temperature_points.length + n := by
  intro n
  induction n with
  | zero =>
    intro t s h1 h2
    exact ⟨s, by simp [CK.ckRun], by simp, by simp⟩
  | succ n ih =>
    intro t s h1 h2
    obtain ⟨pid', T', hstep, hkp', hti'⟩ := ckStep_props sp t s h1 h2
    obtain ⟨s', hrun, ht, hl⟩ := ih (t + 1)
      ⟨pid', T', s.time_points ++ [(t : ℚ) * 0.1], s.temperature_points ++ [T']⟩
      (by simpa [hkp'] using h1) (by simpa [hti'] using h2)
    refine ⟨s', ?_, ?_, ?_⟩
    · simp only [CK.ckRun]
      rw [hstep]
      exact hrun
    · rw [ht]; simp [List.range'_succ]
    · rw [hl]; simp; omega

/-- Claim C7 (amended): every successful run returns `floor(duration/Tp)`
samples (after Python's negative-count ranges collapse to zero), with any
parallel series of equal length; `simulate_2h` of `src/grzejnik.py` and
`symulacja` of `src/ac.py` record the `i`-th time as `i * Tp / 60` minutes,
but the checkpoint variant records `i * st` seconds. -/
theorem claim7_samples_and_times :
    (∀ (kp Ti sp Tp T0 To : ℚ) (ta te pa la : List ℚ),
        Grzejnik.simulate_2h kp Ti sp Tp T0 To = .ok (ta, te, pa, la) →
        ta.length = (⌊(2 * 3600 : ℚ) / Tp⌋).toNat ∧ te.length = ta.length ∧
        pa.length = ta.length ∧ la.length = ta.length ∧
        ∀ i, i < ta.length → ta.getD i 0 = (i : ℚ) * Tp / 60) ∧
    (∀ (sp T0 total pw et : ℝ) (manual : Bool) (ops : List (ℝ × ℝ))
        (wt kp ti td tp : ℝ) (tps temps : List ℝ),
        AC.symulacja sp T0 total pw et manual ops wt kp ti td tp = .ok (tps, temps) →
        tps.length = (⌊total / tp⌋).toNat ∧ temps.length = tps.length ∧
        ∀ i, i < tps.length → tps.getD i 0 = (i : ℝ) * tp / 60) ∧
    (∀ sp : ℚ, ∃ tps temps : List ℚ,
        CK.symulacja sp = .ok (tps, temps) ∧
        tps.length = 36000 ∧ temps.length = tps.length ∧
        ∀ i, i < tps.length → tps.getD i 0 = (i : ℚ) * 0.1) := by
  refine ⟨?_, ?_, ?_⟩
  · intro kp Ti sp Tp T0 To ta te pa la h
    unfold Grzejnik.simulate_2h at h
    obtain ⟨q, hq, h⟩ := exBind_eq_ok h
    obtain ⟨sfin, hrun, h⟩ := exBind_eq_ok h
    simp only [exPure_eq, Except.ok.injEq, Prod.mk.injEq] at h
    obtain ⟨hta, hte, hpa, hla⟩ := h
    have hTp : Tp ≠ 0 ∧ q = (2 * 3600 : ℚ) / Tp := by
      unfold pydiv at hq
      split at hq
      · exact absurd hq (by simp)
      · next hne => exact ⟨hne, by simpa using hq.symm⟩
    obtain ⟨h1, h2, h3, h4⟩ := gRun_arrays sp Tp To _ 0 _ _ hrun
    simp only [hte, hpa, hla, List.length_nil, Nat.zero_add] at h2 h3 h4
    have hlen : ta.length = (pyInt q).toNat := by
      rw [← hta, h1]
      simp
    have hNq : (pyInt q).toNat = (⌊(2 * 3600 : ℚ) / Tp⌋).toNat := by
      rw [hTp.2, pyInt_toNat]
    refine ⟨by omega, by omega, by omega, by omega, ?_⟩
    intro i hi
    rw [← hta, h1]
    simp only [List.nil_append]
    exact timePoints_getD _ _ i (by omega)
  · intro sp T0 total pw et manual ops wt kp ti td tp tps temps h
    unfold AC.symulacja at h
    obtain ⟨q, hq, h⟩ := exBind_eq_ok h
    obtain ⟨sfin, hrun, h⟩ := exBind_eq_ok h
    obtain ⟨ov, hov, h⟩ := exBind_eq_ok h
    simp only [exPure_eq, Except.ok.injEq, Prod.mk.injEq] at h
    obtain ⟨hta, hte⟩ := h
    have htp : tp ≠ 0 ∧ q = total / tp := by
      unfold pydiv at hq
      split at hq
      · exact absurd hq (by simp)
      · next hne => exact ⟨hne, by simpa using hq.symm⟩
    obtain ⟨h1, h2⟩ := acRun_arrays sp pw et manual ops wt tp _ 0 _ _ hrun
    simp only [hte, List.length_nil, Nat.zero_add] at h2
    have hlen : tps.length = (pyInt q).toNat := by
      rw [← hta, h1]
      simp
    have hNq : (pyInt q).toNat = (⌊total / tp⌋).toNat := by
      rw [htp.2, pyInt_toNat]
    refine ⟨by omega, by omega, ?_⟩
    intro i hi
    rw [← hta, h1]
    simp only [List.nil_append]
    exact timePoints_getD _ _ i (by omega)
  · intro sp
    obtain ⟨s', hrun, ht, hl⟩ := ckRun_props sp 36000 0
      ⟨CK.PIDController.init 1500, 15.0, [], []⟩ (by norm_num [CK.PIDController.init])
      (by norm_num [CK.PIDController.init])
    have hN : (pyInt ((3600 : ℚ) / 0.1)).toNat = 36000 := by
      rw [show ((3600 : ℚ) / 0.1) = 36000 by norm_num]
      unfold pyInt
      rw [if_pos (by norm_num : (0 : ℚ) ≤ 36000),
        show ⌊(36000 : ℚ)⌋ = 36000 by norm_num]
      rfl
    have hsym : CK.symulacja sp = .ok (s'.time_points, s'.temperature_points) := by
      simp only [CK.symulacja]
      rw [hN, hrun]
      rfl
    refine ⟨s'.time_points, s'.temperature_points, hsym, ?_, ?_, ?_⟩
    · rw [ht]; simp
    · rw [ht, hl]; simp
    · intro i hi
      rw [ht] at hi ⊢
      simp only [List.nil_append] at hi ⊢
      have hi' : i < 36000 := by simpa using hi
      exact timePoints_getD _ _ i hi'

/-- Unfolding one successful iteration of the `simulate_2h` loop. -/
theorem gRun_succ_ok (sp Tp To : ℚ) (n t : ℕ) (s s₁ : Grzejnik.SimSt)
    (h : Grzejnik.gStep sp Tp To t s = .ok s₁) :
    Grzejnik.gRun sp Tp To (n + 1) t s = Grzejnik.gRun sp Tp To n (t + 1) s₁ := by
  simp only [Grzejnik.gRun]
  rw [h]

/-- Unfolding one successful iteration of the `src/ac.py` loop. -/
theorem acRun_succ_ok (sp pw et : ℝ) (manual : Bool) (ops : List (ℝ × ℝ)) (wt tp : ℝ)
    (n i : ℕ) (s s₁ : AC.SimSt)
    (h : AC.acStep sp pw et manual ops wt tp i s = .ok s₁) :
    AC.acRun sp pw et manual ops wt tp (n + 1) i s =
      AC.acRun sp pw et manual ops wt tp n (i + 1) s₁ := by
  simp only [AC.acRun]
  rw [h]

/-- Concrete instance of `claim7_samples_and_times`. -/
theorem claim7_witness :
    (Grzejnik.simulate_2h 0 1 20 3600 15 15 = .ok ([0, 60], [15, 15], [0, 0], [0, 0]) ∧
      ([0, 60] : List ℚ).length = (⌊(2 * 3600 : ℚ) / 3600⌋).toNat ∧
      ([15, 15] : List ℚ).length = ([0, 60] : List ℚ).length ∧
      ([0, 0] : List ℚ).length = ([0, 60] : List ℚ).length ∧
      ([0, 0] : List ℚ).length = ([0, 60] : List ℚ).length ∧
      ([0, 60] : List ℚ).getD 1 0 = (1 : ℚ) * 3600 / 60) ∧
    (AC.symulacja 22 16 1 0 15 false [] 100 0 1 0 1 = .ok ([0], [892974 / 55811]) ∧
      ([0] : List ℝ).length = (⌊(1 : ℝ) / 1⌋).toNat ∧
      ([892974 / 55811] : List ℝ).length = ([0] : List ℝ).length ∧
      ([0] : List ℝ).getD 0 0 = ((0 : ℕ) : ℝ) * 1 / 60) := by
  have hs0 : Grzejnik.gStep 20 3600 15 0 ⟨⟨0, 1, 3600, 0, 5000, 0, 0, 0⟩, 15, [], [], [], []⟩
      = .ok ⟨⟨0, 1, 3600, 0, 5000, 0, 5, 0⟩, 15, [0], [15], [0], [0]⟩ := by
    norm_num [Grzejnik.gStep, Grzejnik.PI.update, pydiv, npClip, min_def, max_def]
  have hs1 : Grzejnik.gStep 20 3600 15 1 ⟨⟨0, 1, 3600, 0, 5000, 0, 5, 0⟩, 15, [0], [15], [0], [0]⟩
      = .ok ⟨⟨0, 1, 3600, 0, 5000, 0, 5, 0⟩, 15, [0, 60], [15, 15], [0, 0], [0, 0]⟩ := by
    norm_num [Grzejnik.gStep, Grzejnik.PI.update, pydiv, npClip, min_def, max_def]
  have hrun : Grzejnik.gRun 20 3600 15 2 0 ⟨⟨0, 1, 3600, 0, 5000, 0, 0, 0⟩, 15, [], [], [], []⟩
      = .ok ⟨⟨0, 1, 3600, 0, 5000, 0, 5, 0⟩, 15, [0, 60], [15, 15], [0, 0], [0, 0]⟩ := by
    have e1 := gRun_succ_ok 20 3600 15 1 0 _ _ hs0
    have e2 := gRun_succ_ok 20 3600 15 0 1 _ _ hs1
    rw [show (2 : ℕ) = 1 + 1 from rfl, e1, e2]
    rfl
  have hg : Grzejnik.simulate_2h 0 1 20 3600 15 15 = .ok ([0, 60], [15, 15], [0, 0], [0, 0]) := by
    have hq : pydiv (2 * 3600 : ℚ) 3600 = .ok 2 := by norm_num [pydiv]
    have hN : (pyInt (2 : ℚ)).toNat = 2 := by
      unfold pyInt
      rw [if_pos (by norm_num : (0 : ℚ) ≤ 2), show ⌊(2 : ℚ)⌋ = 2 by norm_num]
      rfl
    have hpid : (Grzejnik.PI.init (0 : ℚ) 1 3600 0 5000.0).reset
        = (⟨0, 1, 3600, 0, 5000, 0, 0, 0⟩ : Grzejnik.PI ℚ) := by
      norm_num [Grzejnik.PI.init, Grzejnik.PI.reset]
    simp only [Grzejnik.simulate_2h, hpid]
    rw [hq]
    simp only [exBind_ok]
    rw [hN, hrun]
    rfl
  have ha0 : AC.acStep 22 0 15 false [] 100 1 0 ⟨⟨0, 1, 0, 1, 0, 0⟩, 16, [], []⟩
      = .ok ⟨⟨0, 1, 0, 1, 0, 6⟩, 892974 / 55811, [0], [892974 / 55811]⟩ := by
    norm_num [AC.acStep, AC.PIDController.symulacja_PID, AC.heat_loss_model,
      pydiv, npClip, min_def, max_def]
  have hrunA : AC.acRun 22 0 15 false [] 100 1 1 0 ⟨⟨0, 1, 0, 1, 0, 0⟩, 16, [], []⟩
      = .ok ⟨⟨0, 1, 0, 1, 0, 6⟩, 892974 / 55811, [0], [892974 / 55811]⟩ := by
    have e1 := acRun_succ_ok 22 0 15 false [] 100 1 0 0 _ _ ha0
    rw [show (1 : ℕ) = 0 + 1 from rfl, e1]
    rfl
  have ha : AC.symulacja 22 16 1 0 15 false [] 100 0 1 0 1 = .ok ([0], [892974 / 55811]) := by
    have hq : pydiv (1 : ℝ) 1 = .ok 1 := by norm_num [pydiv]
    have hN : (pyInt (1 : ℝ)).toNat = 1 := by
      unfold pyInt
      rw [if_pos (by norm_num : (0 : ℝ) ≤ 1), show ⌊(1 : ℝ)⌋ = 1 by norm_num]
      rfl
    have hpid : AC.PIDController.init (0 : ℝ) 1 1 0
        = (⟨0, 1, 0, 1, 0, 0⟩ : AC.PIDController ℝ) := rfl
    have hov : AC.calculate_overshoot [(892974 / 55811 : ℝ)] 22
        = .ok ((892974 / 55811 - 22) / 22 * 100) := by
      norm_num [AC.calculate_overshoot, pymax, pydiv]
    simp only [AC.symulacja, hpid]
    rw [hq]
    simp only [exBind_ok]
    rw [hN, hrunA]
    simp only [exBind_ok]
    rw [hov]
    rfl
  refine ⟨⟨hg, ?_⟩, ⟨ha, ?_⟩⟩
  · have H := claim7_samples_and_times.1 0 1 20 3600 15 15 _ _ _ _ hg
    exact ⟨H.1, H.2.1, H.2.2.1, H.2.2.2.1, H.2.2.2.2 1 (by norm_num)⟩
  · have H := claim7_samples_and_times.2.1 22 16 1 0 15 false [] 100 0 1 0 1 _ _ ha
    exact ⟨H.1, H.2.1, H.2.2 0 (by norm_num)⟩

/-- Counterexample to Claim C7 as stated: the checkpoint simulation records
its second time point as `0.1` (seconds), not `1 * Tp / 60` minutes. -/
theorem claim7_counterexample :
    (CK.symulacja 22).map (fun p => p.1.getD 1 0) = .ok (1 / 10 : ℚ) ∧
    (1 / 10 : ℚ) ≠ 1 * (1 / 10) / 60 := by
  constructor
  · obtain ⟨s', hrun, ht, hl⟩ := ckRun_props 22 36000 0
      ⟨CK.PIDController.init 1500, 15.0, [], []⟩ (by norm_num [CK.PIDController.init])
      (by norm_num [CK.PIDController.init])
    have hN : (pyInt ((3600 : ℚ) / 0.1)).toNat = 36000 := by
      rw [show ((3600 : ℚ) / 0.1) = 36000 by norm_num]
      unfold pyInt
      rw [if_pos (by norm_num : (0 : ℚ) ≤ 36000),
        show ⌊(36000 : ℚ)⌋ = 36000 by norm_num]
      rfl
    have hsym : CK.symulacja 22 = .ok (s'.time_points, s'.temperature_points) := by
      simp only [CK.symulacja]
      rw [hN, hrun]
      rfl
    rw [hsym]
    simp only [exceptMap_ok, Except.ok.injEq]
    rw [ht]
    simp only [List.nil_append]
    rw [timePoints_getD (fun i : ℕ => (i : ℚ) * 0.1) 36000 1 (by norm_num)]
    norm_num
  · norm_num

/-- Clamping to the degenerate actuator range `[0, 0]` always yields `0`. -/
theorem npClip_zero {K : Type} [LinearOrderedField K] (x : K) : npClip x 0 0 = 0 :=
  min_eq_right (le_max_right x 0)

/-- With the actuator bound at `0`, no window opening and the wall loss model,
one `src/ac.py` step moves the temperature by `-(loss)/C*tp` and appends the
new temperature to the series. -/
theorem acStep_decay (sp Text wt tp : ℝ) (i : ℕ) (s s' : AC.SimSt)
    (h : AC.acStep sp 0 Text false [] wt tp i s = .ok s') :
    s'.current_temp = s.current_temp +
      (0 - ((0.8 / 1.2 + 0.2 / 0.04 : ℝ)⁻¹ * 10.0 * (s.current_temp - Text)) / (wt / 100))
        / (40.0 * 1.225 * 1005) * tp ∧
    s'.temperature_points = s.temperature_points ++ [s'.current_temp] := by
  unfold AC.acStep at h
  obtain ⟨p, hu, h⟩ := exBind_eq_ok h
  obtain ⟨raw, pid'⟩ := p
  obtain ⟨loss, hl, h⟩ := exBind_eq_ok h
  simp only [exPure_eq, Except.ok.injEq] at h
  subst h
  unfold AC.heat_loss_model at hl
  simp only [Bool.false_or, List.any_nil, Bool.false_eq_true, if_false] at hl
  obtain ⟨v, hpd, hres⟩ := exBind_eq_ok hl
  simp only [exPure_eq, Except.ok.injEq] at hres
  subst hres
  unfold pydiv at hpd
  split at hpd
  · exact absurd hpd (by simp)
  · simp only [Except.ok.injEq] at hpd
    subst hpd
    rw [npClip_zero]
    exact ⟨rfl, rfl⟩

/-- The `src/ac.py` loop with a disabled actuator and no window opening
produces a nonincreasing temperature series bounded between the outside
temperature and the starting temperature, provided the per-step loss is
stable (`loss_coefficient * tp ≤ heat_capacity`). -/
theorem acRun_decay (sp Text wt tp : ℝ) (htp : 0 < tp) (hwt : 0 < wt)
    (hK : (0.8 / 1.2 + 0.2 / 0.04 : ℝ)⁻¹ * 10.0 / (wt / 100) * tp
      ≤ 40.0 * 1.225 * 1005) :
    ∀ (n i : ℕ) (s s' : AC.SimSt), Text ≤ s.current_temp →
      AC.acRun sp 0 Text false [] wt tp n i s = .ok s' →
      ∃ l, s'.temperature_points = s.temperature_points ++ l ∧
        List.Chain' (fun a b => b ≤ a) (s.current_temp :: l) ∧
        (∀ x ∈ l, Text ≤ x) ∧ (∀ x ∈ l, x ≤ s.current_temp) := by
  intro n
  induction n with
  | zero =>
    intro i s s' hT h
    simp only [AC.acRun, Except.ok.injEq] at h
    subst h
    exact ⟨[], by simp, by simp, by simp, by simp⟩
  | succ n ih =>
    intro i s s' hT h
    simp only [AC.acRun] at h
    cases hst : AC.acStep sp 0 Text false [] wt tp i s with
    | error e => rw [hst] at h; exact absurd h (by simp)
    | ok s₁ =>
      rw [hst] at h
      obtain ⟨hTnew, htemps⟩ := acStep_decay sp Text wt tp i s s₁ hst
      have hκrw : s₁.current_temp = s.current_temp -
          ((0.8 / 1.2 + 0.2 / 0.04 : ℝ)⁻¹ * 10.0 / (wt / 100) * tp
            / (40.0 * 1.225 * 1005)) * (s.current_temp - Text) := by
        rw [hTnew]; ring
      have hκ0 : (0 : ℝ) ≤ (0.8 / 1.2 + 0.2 / 0.04 : ℝ)⁻¹ * 10.0 / (wt / 100) * tp
          / (40.0 * 1.225 * 1005) := by
        have h1 : (0 : ℝ) < (0.8 / 1.2 + 0.2 / 0.04 : ℝ)⁻¹ * 10.0 := by norm_num
        have h2 : (0 : ℝ) < wt / 100 := by positivity
        positivity
      have hκ1 : (0.8 / 1.2 + 0.2 / 0.04 : ℝ)⁻¹ * 10.0 / (wt / 100) * tp
          / (40.0 * 1.225 * 1005) ≤ 1 := by
        rw [div_le_one (by norm_num : (0 : ℝ) < 40.0 * 1.225 * 1005)]
        simpa using hK
      have hTT : 0 ≤ s.current_temp - Text := by linarith
      have h1 : s₁.current_temp ≤ s.current_temp := by nlinarith
      have h2 : Text ≤ s₁.current_temp := by nlinarith
      obtain ⟨l, hl1, hl2, hl3, hl4⟩ := ih (i + 1) s₁ s' h2 h
      refine ⟨s₁.current_temp :: l, ?_, ?_, ?_, ?_⟩
      · rw [hl1, htemps]; simp
      · exact List.chain'_cons.mpr ⟨h1, hl2⟩
      · intro x hx
        rcases List.mem_cons.mp hx with hx | hx
        · rw [hx]; exact h2
        · exact hl3 x hx
      · intro x hx
        rcases List.mem_cons.mp hx with hx | hx
        · rw [hx]; exact h1
        · exact (hl4 x hx).trans h1

/-- Claim C8 (amended): for a `src/ac.py` run with the actuator bound at `0`,
no window opening, initial temperature above the outside temperature, a
positive wall thickness and a stable timestep
(`loss_coefficient * tp ≤ heat_capacity`), the temperature series is
nonincreasing and stays between `T_outside` and the initial temperature. -/
theorem claim8_decay (sp T0 total Text wt kp ti td tp : ℝ) (tps temps : List ℝ)
    (htp : 0 < tp) (hwt : 0 < wt) (hT : Text < T0)
    (hK : (0.8 / 1.2 + 0.2 / 0.04 : ℝ)⁻¹ * 10.0 / (wt / 100) * tp
      ≤ 40.0 * 1.225 * 1005)
    (h : AC.symulacja sp T0 total 0 Text false [] wt kp ti td tp = .ok (tps, temps)) :
    List.Chain' (fun a b => b ≤ a) temps ∧ ∀ x ∈ temps, Text ≤ x ∧ x ≤ T0 := by
  unfold AC.symulacja at h
  obtain ⟨q, hq, h⟩ := exBind_eq_ok h
  obtain ⟨sfin, hrun, h⟩ := exBind_eq_ok h
  obtain ⟨ov, hov, h⟩ := exBind_eq_ok h
  simp only [exPure_eq, Except.ok.injEq, Prod.mk.injEq] at h
  obtain ⟨hta, hte⟩ := h
  obtain ⟨l, hl1, hl2, hl3, hl4⟩ :=
    acRun_decay sp Text wt tp htp hwt hK _ 0 _ _ (le_of_lt hT) hrun
  simp only [List.nil_append] at hl1
  rw [← hte, hl1]
  constructor
  · exact hl2.tail
  · intro x hx
    exact ⟨hl3 x hx, hl4 x hx⟩

/-- Concrete instance of `claim8_decay` (a one-step run). -/
theorem claim8_witness :
    ((0 : ℝ) < 1 ∧ (0 : ℝ) < 100 ∧ (15 : ℝ) < 16 ∧
      (0.8 / 1.2 + 0.2 / 0.04 : ℝ)⁻¹ * 10.0 / ((100 : ℝ) / 100) * 1
        ≤ 40.0 * 1.225 * 1005 ∧
      AC.symulacja 22 16 1 0 15 false [] 100 0 1 0 1 = .ok ([0], [892974 / 55811])) ∧
    (List.Chain' (fun a b : ℝ => b ≤ a) [892974 / 55811] ∧
      ((15 : ℝ) ≤ 892974 / 55811 ∧ (892974 / 55811 : ℝ) ≤ 16)) := by
  have ha0 : AC.acStep 22 0 15 false [] 100 1 0 ⟨⟨0, 1, 0, 1, 0, 0⟩, 16, [], []⟩
      = .ok ⟨⟨0, 1, 0, 1, 0, 6⟩, 892974 / 55811, [0], [892974 / 55811]⟩ := by
    norm_num [AC.acStep, AC.PIDController.symulacja_PID, AC.heat_loss_model,
      pydiv, npClip, min_def, max_def]
  have hrunA : AC.acRun 22 0 15 false [] 100 1 1 0 ⟨⟨0, 1, 0, 1, 0, 0⟩, 16, [], []⟩
      = .ok ⟨⟨0, 1, 0, 1, 0, 6⟩, 892974 / 55811, [0], [892974 / 55811]⟩ := by
    have e1 := acRun_succ_ok 22 0 15 false [] 100 1 0 0 _ _ ha0
    rw [show (1 : ℕ) = 0 + 1 from rfl, e1]
    rfl
  have ha : AC.symulacja 22 16 1 0 15 false [] 100 0 1 0 1 = .ok ([0], [892974 / 55811]) := by
    have hq : pydiv (1 : ℝ) 1 = .ok 1 := by norm_num [pydiv]
    have hN : (pyInt (1 : ℝ)).toNat = 1 := by
      unfold pyInt
      rw [if_pos (by norm_num : (0 : ℝ) ≤ 1), show ⌊(1 : ℝ)⌋ = 1 by norm_num]
      rfl
    have hpid : AC.PIDController.init (0 : ℝ) 1 1 0
        = (⟨0, 1, 0, 1, 0, 0⟩ : AC.PIDController ℝ) := rfl
    have hov : AC.calculate_overshoot [(892974 / 55811 : ℝ)] 22
        = .ok ((892974 / 55811 - 22) / 22 * 100) := by
      norm_num [AC.calculate_overshoot, pymax, pydiv]
    simp only [AC.symulacja, hpid]
    rw [hq]
    simp only [exBind_ok]
    rw [hN, hrunA]
    simp only [exBind_ok]
    rw [hov]
    rfl
  have H := claim8_decay 22 16 1 15 100 0 1 0 1 [0] [892974 / 55811]
    (by norm_num) (by norm_num) (by norm_num) (by norm_num) ha
  exact ⟨⟨by norm_num, by norm_num, by norm_num, by norm_num, ha⟩,
    H.1, H.2 (892974 / 55811) (by simp)⟩

/-- Counterexample to Claim C8 as stated: with a huge timestep the explicit
Euler update overshoots — after one step the temperature `13` is already
below the outside temperature `15`, so the series does not remain at or
above `T_outside`. -/
theorem claim8_counterexample :
    AC.symulacja 20 16 (167433 / 2) 0 15 false [] 100 1 1 0 (167433 / 2)
      = .ok ([0], [13]) ∧ ¬ ((15 : ℝ) ≤ 13) := by
  have ha0 : AC.acStep 20 0 15 false [] 100 (167433 / 2) 0
      ⟨⟨1, 1, 0, 167433 / 2, 0, 0⟩, 16, [], []⟩
      = .ok ⟨⟨1, 1, 0, 167433 / 2, 0, 4⟩, 13, [0], [13]⟩ := by
    norm_num [AC.acStep, AC.PIDController.symulacja_PID, AC.heat_loss_model,
      pydiv, npClip, min_def, max_def]
  have hrunA : AC.acRun 20 0 15 false [] 100 (167433 / 2) 1 0
      ⟨⟨1, 1, 0, 167433 / 2, 0, 0⟩, 16, [], []⟩ = .ok ⟨⟨1, 1, 0, 167433 / 2, 0, 4⟩, 13, [0], [13]⟩ := by
    have e1 := acRun_succ_ok 20 0 15 false [] 100 (167433 / 2) 0 0 _ _ ha0
    rw [show (1 : ℕ) = 0 + 1 from rfl, e1]
    rfl
  constructor
  · have hq : pydiv (167433 / 2 : ℝ) (167433 / 2) = .ok 1 := by norm_num [pydiv]
    have hN : (pyInt (1 : ℝ)).toNat = 1 := by
      unfold pyInt
      rw [if_pos (by norm_num : (0 : ℝ) ≤ 1), show ⌊(1 : ℝ)⌋ = 1 by norm_num]
      rfl
    have hpid : AC.PIDController.init (1 : ℝ) (167433 / 2) 1 0
        = (⟨1, 1, 0, 167433 / 2, 0, 0⟩ : AC.PIDController ℝ) := rfl
    have hov : AC.calculate_overshoot [(13 : ℝ)] 20 = .ok ((13 - 20) / 20 * 100) := by
      norm_num [AC.calculate_overshoot, pymax, pydiv]
    simp only [AC.symulacja, hpid]
    rw [hq]
    simp only [exBind_ok]
    rw [hN, hrunA]
    simp only [exBind_ok]
    rw [hov]
    rfl
  · norm_num
